import Mathlib

/-!
Shallow embedding of the OAuth2 "web server" grant flow of
`src/oauth2/server.js` (authorization-code issuance and redemption),
together with theorems settling the specification claims about it.

Modelling conventions, shared by all definitions below:
* JavaScript strings are Lean `String`s.  A request parameter that is
  absent or empty is modelled as `""` (both are falsy in JavaScript, and
  the source only ever tests parameters for truthiness).
* Millisecond timestamps (`Date.now()`) are `Int`.
* The rest-mongo stores are association lists keyed by `id`; a store
  read that succeeds is the `List.find?` lookup.  The one persistence
  operation whose failure path the source handles on the redemption
  path (`grant.delete_(ok, fallback)`) is modelled by an explicit
  `Option String` outcome parameter (`none` = the delete succeeds,
  `some e` = the store fails with error `e`, triggering the fallback).
* Handlers are pure functions from the request and the store state to a
  response value (plus the updated store where the source mutates it).
-/

/-- Client record as read back from `R.Client.get` (fields the server uses). -/
structure Client where
  id : String
  secret : String
  redirect_uri : String
  name : String
deriving DecidableEq

/-- Grant record as created by `send_grant` and read back by `valid_grant`:
`{id, client_id, time, user_id, code}`. -/
structure Grant where
  id : String
  client_id : String
  time : Int
  user_id : String
  code : String
deriving DecidableEq

/-- Grant store: the set of persisted grants, keyed by `id`. -/
abbrev GrantStore := List Grant

/-- Store lookup `R.Grant.get({ids: i}, ...)`: the grant with id `i`, if any. -/
def getGrant (store : GrantStore) (i : String) : Option Grant :=
  store.find? (fun g => g.id = i)

/-- Store deletion `grant.delete_`: removes the grant with id `i`. -/
def deleteGrant (store : GrantStore) (i : String) : GrantStore :=
  store.filter (fun g => g.id ≠ i)

/-- Split a character list at every occurrence of `sep`: the character-level
semantics of JavaScript `String.prototype.split` with a one-character
separator (`"".split` gives `[""]`, adjacent separators give empty parts). -/
def splitCharList (sep : Char) : List Char → List (List Char)
  | [] => [[]]
  | c :: cs =>
    if c = sep then [] :: splitCharList sep cs
    else
      match splitCharList sep cs with
      | [] => [[c]]
      | l :: ls => (c :: l) :: ls

/-- JavaScript `s.split(sep)` for a one-character separator, on strings. -/
def js_split (sep : Char) (s : String) : List String :=
  (splitCharList sep s.toList).map String.mk

/-- Outcome of one grant-redemption attempt: the three ways `valid_grant`
can answer — `callback(token)`, `callback(null)`, or `fallback(err)`. -/
inductive Redemption where
  | token (access_token : String)
  | invalid
  | error (e : String)
deriving DecidableEq

/-- Source `create_access_token(user_id, client_id)`:
`return user_id + ',' + client_id;`. -/
def create_access_token (user_id client_id : String) : String :=
  user_id ++ "," ++ client_id

/-- Source `valid_grant(R, data, callback, fallback)` as a pure function of
the current time, the delete outcome, the grant store and the request data
(`data.code`, `data.client_id`).  Returns the redemption outcome together
with the resulting store.  Mirrors the source line by line:
`var id_code = data.code.split('|'); if(id_code.length != 2) return callback(null);`
then the lookup, the combined freshness/client/code check against
`minute_ago = Date.now() - 60000`, and on success the delete followed by
`callback({access_token: create_access_token(grant.user_id, grant.client_id)})`. -/
def valid_grant (now : Int) (deleteOutcome : Option String) (store : GrantStore)
    (code client_id : String) : Redemption × GrantStore :=
  match js_split '|' code with
  | [gid, gcode] =>
    match getGrant store gid with
    | none => (.invalid, store)
    | some grant =>
      let minute_ago := now - 60000
      if grant.time < minute_ago ∨ grant.client_id ≠ client_id ∨ grant.code ≠ gcode then
        (.invalid, store)
      else
        match deleteOutcome with
        | none =>
          (.token (create_access_token grant.user_id grant.client_id),
            deleteGrant store grant.id)
        | some e => (.error e, store)
  | _ => (.invalid, store)

/-- Parameters of an obtain-access-token (`oat`) request, after form
parsing.  A field holds `""` when absent (JavaScript falsy). -/
structure OatParams where
  grant_type : String
  client_id : String
  code : String
  redirect_uri : String
  scope : String
  client_secret : String
deriving DecidableEq

/-- Token-endpoint request: the `Authorization` header (`""` when absent)
plus the parsed form parameters. -/
structure TokenReq where
  authorization_header : String
  params : OatParams
deriving DecidableEq

/-- Response of the token endpoint: `oauth_error` (status 400), the JSON
token response (status 200), or `unknown_error` (server error, 5xx). -/
inductive TokenResp where
  | oauthErr (cls errId : String)
  | ok (access_token : String)
  | serverErr (e : String)
deriving DecidableEq

/-- HTTP status carried by each token-endpoint response. -/
def TokenResp.status : TokenResp → Nat
  | .oauthErr _ _ => 400
  | .ok _ => 200
  | .serverErr _ => 500

/-- Client-secret resolution block of `token_endpoint`: the secret must
arrive exactly once, via the `Authorization` header or the `client_secret`
parameter; from the header, `secret.slice(6)` strips the leading scheme
prefix.  Returns the resolved secret, or `none` for the `invalid_request`
rejection. -/
def resolve_secret (req : TokenReq) : Option String :=
  let secret := req.authorization_header
  if secret ≠ "" then
    if req.params.client_secret ≠ "" then none
    else some (secret.drop 6)
  else if req.params.client_secret = "" then none
  else some req.params.client_secret

/-- Source `token_endpoint(req, res)` from the completed form onward, as a
pure function of the time, the delete outcome, the client store, the grant
store and the request.  Stages in source order: mandatory `oat` parameters,
`grant_type == 'authorization_code'`, client-secret resolution, client
lookup and secret comparison, `redirect_uri` comparison, then
`valid_grant`; a null token maps to `invalid_grant`, an error to
`unknown_error`. -/
def token_endpoint (now : Int) (deleteOutcome : Option String) (clients : List Client)
    (store : GrantStore) (req : TokenReq) : TokenResp × GrantStore :=
  let params := req.params
  if params.grant_type = "" ∨ params.client_id = "" ∨ params.code = "" ∨
      params.redirect_uri = "" then
    (.oauthErr "oat" "invalid_request", store)
  else if params.grant_type ≠ "authorization_code" then
    (.oauthErr "oat" "unsupported_grant_type", store)
  else
    match resolve_secret req with
    | none => (.oauthErr "oat" "invalid_request", store)
    | some client_secret =>
      match clients.find? (fun c => c.id = params.client_id) with
      | none => (.oauthErr "oat" "invalid_client", store)
      | some client =>
        if client.secret ≠ client_secret then (.oauthErr "oat" "invalid_client", store)
        else if client.redirect_uri ≠ params.redirect_uri then
          (.oauthErr "oat" "invalid_grant", store)
        else
          match valid_grant now deleteOutcome store params.code client.id with
          | (.token t, store2) => (.ok t, store2)
          | (.invalid, store2) => (.oauthErr "oat" "invalid_grant", store2)
          | (.error e, store2) => (.serverErr e, store2)

/-- Mandatory parameters of an `eua` request (`PARAMS.eua.mandatory`). -/
def eua_mandatory : List String := ["client_id", "response_type", "redirect_uri"]

/-- Own keys of the `PARAMS.eua.response_types` object literal
(`{'token': 1, 'code': 1, 'code_and_token': 1}`). -/
def response_types : List String := ["token", "code", "code_and_token"]

/-- Property names every JavaScript object literal inherits from
`Object.prototype`, all of which hold truthy values (functions, or the
prototype object itself for `__proto__`): a lookup such as
`PARAMS.eua.response_types[x]` finds these through the prototype chain
even though they are not own keys of the literal. -/
def object_prototype_keys : List String :=
  ["constructor", "hasOwnProperty", "isPrototypeOf", "propertyIsEnumerable",
   "toLocaleString", "toString", "valueOf", "__defineGetter__",
   "__defineSetter__", "__lookupGetter__", "__lookupSetter__", "__proto__"]

/-- JavaScript truthiness of `PARAMS.eua.response_types[x]`: true for the
own keys (whose value is `1`) and for the truthy properties inherited from
`Object.prototype`. -/
def response_type_truthy (x : String) : Bool :=
  response_types.contains x || object_prototype_keys.contains x

/-- Parameter lookup in a parsed query/form object: the value at key `k`,
or `""` when the key is absent (JavaScript falsy). -/
def getParam (params : List (String × String)) (k : String) : String :=
  match params.find? (fun p => p.1 = k) with
  | some p => p.2
  | none => ""

/-- Observable steps the `authorize` handler performs, in order: error
responses, the 501 "not implemented" response, the `R.Client.get` call,
and the delegation to `authentication.login`. -/
inductive AuthAction where
  | oauthError (cls errId : String)
  | notImplemented
  | clientLookup (id : String)
  | login (client_id client_name redirect_uri state : String)
deriving DecidableEq

/-- Source `authorize(params, req, res)` as the list of actions it
performs.  Mirrors the source: mandatory-parameter check, then the
enumeration test `!PARAMS.eua.response_types[params.response_type]` — a
truthy property lookup, so own keys and inherited `Object.prototype`
properties both pass it — then, because the `response_type != "code"`
branch writes the 501 response without returning, the client lookup and
login delegation run regardless, so the 501 is followed by the remaining
actions. -/
def authorize (params : List (String × String)) (clients : List Client) :
    List AuthAction :=
  if eua_mandatory.any (fun p => getParam params p = "") then
    [.oauthError "eua" "invalid_request"]
  else if ¬ response_type_truthy (getParam params "response_type") then
    [.oauthError "eua" "unsupported_response_type"]
  else
    (if getParam params "response_type" ≠ "code" then [.notImplemented] else []) ++
    (.clientLookup (getParam params "client_id") ::
      match clients.find? (fun c => c.id = getParam params "client_id") with
      | none => [.oauthError "eua" "invalid_client"]
      | some client =>
        if client.redirect_uri ≠ getParam params "redirect_uri" then
          [.oauthError "eua" "redirect_uri_mismatch"]
        else
          [.login client.id client.name (getParam params "redirect_uri")
            (getParam params "state")])

/-- Authorization-endpoint request as the handler observes it:
`url_query` is `URL.parse(req.url, true).query` (the parsed query object
when the URL carries a query string, absent otherwise, per the
contemporaneous `url` module the source was written against), and `form`
is the parsed form body (`none` when there is no form middleware or the
form fails to parse — both report `invalid_request` in the source). -/
structure AuthReq where
  url_query : Option (List (String × String))
  form : Option (List (String × String))
deriving DecidableEq

/-- Source `authorize_endpoint(req, res)`: dispatches on the parsed query
object (`if(params) return authorize(params, req, res)`), otherwise
completes the form and feeds its fields to `authorize`. -/
def authorize_endpoint (clients : List Client) (req : AuthReq) : List AuthAction :=
  match req.url_query with
  | some params => authorize params clients
  | none =>
    match req.form with
    | none => [.oauthError "eua" "invalid_request"]
    | some fields => authorize fields clients

/-- Client context `send_grant` receives from the login flow
(`client_data`): the fields it reads. -/
structure ClientData where
  client_id : String
  redirect_uri : String
  state : String
deriving DecidableEq

/-- Outcome of `grant.save`: the store assigns `grant.id` on success, or
fails with an error. -/
inductive SaveOutcome where
  | ok (id : String)
  | err (e : String)
deriving DecidableEq

/-- Response of the grant issuer: `tools.redirect(res, redirect_uri + '?' + qs)`
with the query pairs kept structured, or `unknown_error`. -/
inductive IssuerResponse where
  | redirect (base : String) (qs : List (String × String))
  | serverError (e : String)
deriving DecidableEq

/-- Source `send_grant(res, R, user_id, client_data)` as a pure function of
the save outcome, the time, and the generated `randomString(128)` secret.
Returns the response together with the grant as persisted (`none` when the
save failed).  On success the code query parameter is
`grant.id + '|' + grant.code`, and `state` is added exactly when
`client_data.state` is truthy. -/
def send_grant (saveOutcome : SaveOutcome) (now : Int) (user_id : String)
    (client_data : ClientData) (grant_code : String) :
    IssuerResponse × Option Grant :=
  match saveOutcome with
  | .ok gid =>
    let grant : Grant := ⟨gid, client_data.client_id, now, user_id, grant_code⟩
    let qs := [("code", grant.id ++ "|" ++ grant.code)]
    let qs := if client_data.state ≠ "" then qs ++ [("state", client_data.state)] else qs
    (.redirect client_data.redirect_uri qs, some grant)
  | .err e => (.serverError e, none)

/-- Progress of one in-flight redemption request through `valid_grant`:
before the `R.Grant.get` callback, between that callback and the
`grant.delete_` callback (holding the grant snapshot the lookup
returned), or finished. -/
inductive Phase where
  | start
  | got (g : Option Grant)
  | done (r : Redemption)
deriving DecidableEq

/-- One in-flight redemption request: its inputs and its phase. -/
structure ReqSt where
  code : String
  client_id : String
  phase : Phase
deriving DecidableEq

/-- Small-step execution of `valid_grant` against the shared store, one
asynchronous store callback at a time.  Step one performs the split and the
`R.Grant.get` lookup; step two runs the freshness/client/code checks on the
snapshot, and on success deletes the grant and issues the token (the delete
is modelled as succeeding). -/
def stepReq (now : Int) (store : GrantStore) (r : ReqSt) : GrantStore × ReqSt :=
  match r.phase with
  | .start =>
    match js_split '|' r.code with
    | [gid, _] => (store, { r with phase := .got (getGrant store gid) })
    | _ => (store, { r with phase := .done .invalid })
  | .got og =>
    match js_split '|' r.code with
    | [_, gcode] =>
      match og with
      | none => (store, { r with phase := .done .invalid })
      | some g =>
        if g.time < now - 60000 ∨ g.client_id ≠ r.client_id ∨ g.code ≠ gcode then
          (store, { r with phase := .done .invalid })
        else
          (deleteGrant store g.id,
            { r with phase := .done (.token (create_access_token g.user_id g.client_id)) })
    | _ => (store, { r with phase := .done .invalid })
  | .done _ => (store, r)

/-- Two concurrent redemption requests sharing the grant store. -/
structure Sys where
  store : GrantStore
  r1 : ReqSt
  r2 : ReqSt
deriving DecidableEq

/-- Advance the first (`true`) or second (`false`) request by one step. -/
def stepSys (now : Int) (s : Sys) (first : Bool) : Sys :=
  if first then
    let p := stepReq now s.store s.r1
    { s with store := p.1, r1 := p.2 }
  else
    let p := stepReq now s.store s.r2
    { s with store := p.1, r2 := p.2 }

/-- Run an interleaving schedule over the two-request system. -/
def runSched (now : Int) (sched : List Bool) (s : Sys) : Sys :=
  sched.foldl (stepSys now) s

/-- Redemption success characterized: a token comes out exactly when the
code splits into two parts naming a stored, fresh grant bound to the
calling client with the matching secret. -/
theorem valid_grant_token_iff (now : Int) (store : GrantStore) (code client_id : String) :
    (∃ t, (valid_grant now none store code client_id).1 = .token t) ↔
      (∃ gid gcode g, js_split '|' code = [gid, gcode] ∧
        getGrant store gid = some g ∧ ¬ g.time < now - 60000 ∧
        g.client_id = client_id ∧ g.code = gcode) := by
  constructor
  · rintro ⟨t, ht⟩
    rcases hsplit : js_split '|' code with _ | ⟨gid, _ | ⟨gcode, _ | ⟨a, rest⟩⟩⟩
    · simp [valid_grant, hsplit] at ht
    · simp [valid_grant, hsplit] at ht
    · simp only [valid_grant, hsplit] at ht
      cases hg : getGrant store gid with
      | none => simp [hg] at ht
      | some g =>
        by_cases hc : g.time < now - 60000 ∨ g.client_id ≠ client_id ∨ g.code ≠ gcode
        · simp [hg, hc] at ht
        · push_neg at hc
          exact ⟨gid, gcode, g, rfl, hg, not_lt.mpr hc.1, hc.2.1, hc.2.2⟩
    · simp [valid_grant, hsplit] at ht
  · rintro ⟨gid, gcode, g, hsplit, hg, h1, h2, h3⟩
    refine ⟨create_access_token g.user_id g.client_id, ?_⟩
    simp [valid_grant, hsplit, hg, h1, h2, h3]

/-- C1: the redeemer yields a token exactly when the code splits on the
delimiter into two parts, a grant with the first part as id exists, the
grant is within the freshness window, its client id matches the caller and
its secret matches the second part; on success the access token is
synthesized from the grant's `(user_id, client_id)` and the grant is
deleted; any failed condition yields the null (invalid) outcome. -/
theorem oauth_C1 (now : Int) (store : GrantStore) (code client_id : String) :
    ((∃ t, (valid_grant now none store code client_id).1 = .token t) ↔
      (∃ gid gcode g, js_split '|' code = [gid, gcode] ∧
        getGrant store gid = some g ∧ ¬ g.time < now - 60000 ∧
        g.client_id = client_id ∧ g.code = gcode)) ∧
    (∀ gid gcode g, js_split '|' code = [gid, gcode] →
      getGrant store gid = some g → ¬ g.time < now - 60000 →
      g.client_id = client_id → g.code = gcode →
      valid_grant now none store code client_id =
        (.token (create_access_token g.user_id g.client_id), deleteGrant store g.id)) := by
  constructor
  · exact valid_grant_token_iff now store code client_id
  · intro gid gcode g hsplit hg h1 h2 h3
    simp [valid_grant, hsplit, hg, h1, h2, h3]

/-- Witness for C1 at a concrete store and request. -/
theorem oauth_C1_witness :
    valid_grant 5 none [⟨"g1", "c1", 0, "u1", "s"⟩] "g1|s" "c1" =
      (.token (create_access_token "u1" "c1"),
        deleteGrant [⟨"g1", "c1", 0, "u1", "s"⟩] "g1") :=
  (oauth_C1 5 [⟨"g1", "c1", 0, "u1", "s"⟩] "g1|s" "c1").2 "g1" "s"
    ⟨"g1", "c1", 0, "u1", "s"⟩ (by decide) (by decide) (by decide) (by decide) (by decide)

/-- Counterexample to C3 as stated: a grant issued at `T = 0` and presented
at exactly `now = T + 60000` milliseconds is not rejected — the source test
`grant.time < now - 60000` is strict, so the redemption still succeeds and
issues a token. -/
theorem oauth_C3_cex :
    (valid_grant 60000 none [⟨"g1", "c1", 0, "u1", "s"⟩] "g1|s" "c1").1 =
      .token "u1,c1" := by
  decide

/-- C3 as amended: with every other check passing, a grant issued at time
`T` is redeemed successfully exactly when `now ≤ T + 60s`; in particular at
`now = T + 60s` redemption still succeeds, and it is rejected as invalid
precisely at strictly later instants. -/
theorem oauth_C3_amended (now T : Int) (store : GrantStore)
    (code client_id gid gcode : String) (g : Grant)
    (hsplit : js_split '|' code = [gid, gcode]) (hg : getGrant store gid = some g)
    (hT : g.time = T) (hcid : g.client_id = client_id) (hcode : g.code = gcode) :
    ((∃ t, (valid_grant now none store code client_id).1 = .token t) ↔
      now ≤ T + 60000) ∧
    (T + 60000 < now → (valid_grant now none store code client_id).1 = .invalid) := by
  have hfresh : (g.time < now - 60000) ↔ T + 60000 < now := by omega
  constructor
  · rw [valid_grant_token_iff now store code client_id]
    constructor
    · rintro ⟨gid2, gcode2, g2, hsplit2, hg2, h1, h2, h3⟩
      rw [hsplit] at hsplit2
      injection hsplit2 with e1 e2
      injection e2 with e2
      rw [← e1, hg] at hg2
      injection hg2 with e3
      rw [← e3] at h1
      omega
    · intro hle
      exact ⟨gid, gcode, g, hsplit, hg, by omega, hcid, hcode⟩
  · intro hlate
    simp [valid_grant, hsplit, hg, hfresh.mpr hlate]

/-- Witness for the amended C3: at `now = T + 60000` exactly the token is
still issued, and one millisecond later the redemption is invalid. -/
theorem oauth_C3_amended_witness :
    (∃ t, (valid_grant 60000 none [⟨"g1", "c1", 0, "u1", "s"⟩] "g1|s" "c1").1 =
      .token t) ∧
    (valid_grant 60001 none [⟨"g1", "c1", 0, "u1", "s"⟩] "g1|s" "c1").1 = .invalid := by
  constructor
  · exact (oauth_C3_amended 60000 0 [⟨"g1", "c1", 0, "u1", "s"⟩] "g1|s" "c1" "g1" "s"
      ⟨"g1", "c1", 0, "u1", "s"⟩ (by decide) (by decide) rfl rfl rfl).1.mpr (by decide)
  · exact (oauth_C3_amended 60001 0 [⟨"g1", "c1", 0, "u1", "s"⟩] "g1|s" "c1" "g1" "s"
      ⟨"g1", "c1", 0, "u1", "s"⟩ (by decide) (by decide) rfl rfl rfl).2 (by decide)

/-- C6: a presented code whose split on the delimiter has any arity other
than two is answered by the invalid outcome with the store untouched — the
redeemer (a total function here) never reaches the store or the error
path for such codes. -/
theorem oauth_C6 (now : Int) (deleteOutcome : Option String) (store : GrantStore)
    (code client_id : String) (h : (js_split '|' code).length ≠ 2) :
    valid_grant now deleteOutcome store code client_id = (.invalid, store) := by
  rcases hsplit : js_split '|' code with _ | ⟨gid, _ | ⟨gcode, _ | ⟨a, rest⟩⟩⟩ <;>
    simp only [valid_grant, hsplit]
  · rw [hsplit] at h
    simp at h

/-- Case analysis of one redemption: either the outcome is invalid and the
store is untouched, or a token is issued (possible only when the delete
succeeded), or the error outcome is the propagated store failure, again
with the store model unchanged. -/
theorem valid_grant_cases (now : Int) (de : Option String) (store : GrantStore)
    (code client_id : String) :
    ((valid_grant now de store code client_id).1 = .invalid ∧
      (valid_grant now de store code client_id).2 = store) ∨
    ((∃ t, (valid_grant now de store code client_id).1 = .token t) ∧ de = none) ∨
    (∃ e, (valid_grant now de store code client_id).1 = .error e ∧ de = some e ∧
      (valid_grant now de store code client_id).2 = store) := by
  rcases hsplit : js_split '|' code with _ | ⟨gid, _ | ⟨gcode, _ | ⟨a, rest⟩⟩⟩
  · left
    simp [valid_grant, hsplit]
  · left
    simp [valid_grant, hsplit]
  · cases hg : getGrant store gid with
    | none =>
      left
      simp [valid_grant, hsplit, hg]
    | some g =>
      by_cases hc : g.time < now - 60000 ∨ g.client_id ≠ client_id ∨ g.code ≠ gcode
      · left
        simp [valid_grant, hsplit, hg, hc]
      · cases de with
        | none =>
          right
          left
          exact ⟨⟨create_access_token g.user_id g.client_id,
            by simp [valid_grant, hsplit, hg, hc]⟩, rfl⟩
        | some e =>
          right
          right
          exact ⟨e, by simp [valid_grant, hsplit, hg, hc],
            rfl, by simp [valid_grant, hsplit, hg, hc]⟩
  · left
    simp [valid_grant, hsplit]

/-- Witness for C6: a code with no delimiter and a code with two delimiters
are both rejected as invalid without touching the store. -/
theorem oauth_C6_witness :
    ((js_split '|' "abc").length ≠ 2 ∧
      valid_grant 0 none [⟨"g1", "c1", 0, "u1", "s"⟩] "abc" "c1" =
        (.invalid, [⟨"g1", "c1", 0, "u1", "s"⟩])) ∧
    ((js_split '|' "a|b|c").length ≠ 2 ∧
      valid_grant 0 none [⟨"g1", "c1", 0, "u1", "s"⟩] "a|b|c" "c1" =
        (.invalid, [⟨"g1", "c1", 0, "u1", "s"⟩])) :=
  ⟨⟨by decide, oauth_C6 0 none [⟨"g1", "c1", 0, "u1", "s"⟩] "abc" "c1" (by decide)⟩,
   ⟨by decide, oauth_C6 0 none [⟨"g1", "c1", 0, "u1", "s"⟩] "a|b|c" "c1" (by decide)⟩⟩

/-- Case analysis of the token endpoint: every response is either an OAuth
error with the store untouched, a token response, or the propagated store
failure (again with the store model unchanged). -/
theorem token_endpoint_cases (now : Int) (de : Option String) (clients : List Client)
    (store : GrantStore) (req : TokenReq) :
    (∃ cls errId, token_endpoint now de clients store req =
      (.oauthErr cls errId, store)) ∨
    (∃ t store2, token_endpoint now de clients store req = (.ok t, store2)) ∨
    (∃ e, de = some e ∧ token_endpoint now de clients store req =
      (.serverErr e, store)) := by
  by_cases h1 : req.params.grant_type = "" ∨ req.params.client_id = "" ∨
      req.params.code = "" ∨ req.params.redirect_uri = ""
  · left
    exact ⟨"oat", "invalid_request", by simp [token_endpoint, h1]⟩
  · by_cases h2 : req.params.grant_type ≠ "authorization_code"
    · left
      exact ⟨"oat", "unsupported_grant_type", by simp [token_endpoint, h1, h2]⟩
    · cases hrs : resolve_secret req with
      | none =>
        left
        exact ⟨"oat", "invalid_request", by simp [token_endpoint, h1, h2, hrs]⟩
      | some s =>
        cases hcl : clients.find? (fun c => c.id = req.params.client_id) with
        | none =>
          left
          exact ⟨"oat", "invalid_client", by simp [token_endpoint, h1, h2, hrs, hcl]⟩
        | some client =>
          by_cases h3 : client.secret ≠ s
          · left
            exact ⟨"oat", "invalid_client", by simp [token_endpoint, h1, h2, hrs, hcl, h3]⟩
          · by_cases h4 : client.redirect_uri ≠ req.params.redirect_uri
            · left
              exact ⟨"oat", "invalid_grant",
                by simp [token_endpoint, h1, h2, hrs, hcl, h3, h4]⟩
            · rcases hvg : valid_grant now de store req.params.code client.id
                with ⟨r, store2⟩
              rcases valid_grant_cases now de store req.params.code client.id with
                ⟨hi, hs⟩ | ⟨⟨t, ht⟩, hde⟩ | ⟨e, he, hde, hs⟩
              · rw [hvg] at hi hs
                simp only at hi hs
                subst hi
                subst hs
                left
                refine ⟨"oat", "invalid_grant", ?_⟩
                simp [token_endpoint, h1, h2, hrs, hcl, h3, h4, hvg]
              · rw [hvg] at ht
                simp only at ht
                subst ht
                right
                left
                refine ⟨t, store2, ?_⟩
                simp [token_endpoint, h1, h2, hrs, hcl, h3, h4, hvg]
              · rw [hvg] at he hs
                simp only at he hs
                subst he
                subst hs
                right
                right
                refine ⟨e, hde, ?_⟩
                simp [token_endpoint, h1, h2, hrs, hcl, h3, h4, hvg]

/-- C5: a redemption attempt failing any validity check yields the invalid
outcome and leaves the grant store unchanged (no grant deleted, no token
produced); at the endpoint every such failure is an OAuth error with
status 400 and an untouched store; the unknown-error (server error) path
arises only from a persistence failure; and when the redeemer answers
invalid after client authentication, the endpoint reports exactly
`invalid_grant`. -/
theorem oauth_C5 (now : Int) (deleteOutcome : Option String) (clients : List Client)
    (store : GrantStore) (code client_id : String) (req : TokenReq) :
    ((valid_grant now deleteOutcome store code client_id).1 = .invalid →
      (valid_grant now deleteOutcome store code client_id).2 = store) ∧
    (∀ e, (valid_grant now deleteOutcome store code client_id).1 = .error e →
      deleteOutcome = some e) ∧
    (∀ cls errId,
      (token_endpoint now deleteOutcome clients store req).1 = .oauthErr cls errId →
      (token_endpoint now deleteOutcome clients store req).2 = store ∧
      ((token_endpoint now deleteOutcome clients store req).1).status = 400) ∧
    (∀ e, (token_endpoint now deleteOutcome clients store req).1 = .serverErr e →
      deleteOutcome = some e) ∧
    (∀ client s,
      ¬ (req.params.grant_type = "" ∨ req.params.client_id = "" ∨
        req.params.code = "" ∨ req.params.redirect_uri = "") →
      req.params.grant_type = "authorization_code" →
      resolve_secret req = some s →
      clients.find? (fun c => c.id = req.params.client_id) = some client →
      client.secret = s →
      client.redirect_uri = req.params.redirect_uri →
      (valid_grant now deleteOutcome store req.params.code client.id).1 = .invalid →
      token_endpoint now deleteOutcome clients store req =
        (.oauthErr "oat" "invalid_grant", store)) := by
  refine ⟨?_, ?_, ?_, ?_, ?_⟩
  · intro h
    rcases valid_grant_cases now deleteOutcome store code client_id with
      ⟨hi, hs⟩ | ⟨⟨t, ht⟩, hde⟩ | ⟨e, he, hde, hs⟩
    · exact hs
    · rw [h] at ht
      cases ht
    · rw [h] at he
      cases he
  · intro e h
    rcases valid_grant_cases now deleteOutcome store code client_id with
      ⟨hi, hs⟩ | ⟨⟨t, ht⟩, hde⟩ | ⟨e2, he, hde, hs⟩
    · rw [h] at hi
      cases hi
    · rw [h] at ht
      cases ht
    · rw [h] at he
      cases he
      exact hde
  · intro cls errId h
    rcases token_endpoint_cases now deleteOutcome clients store req with
      ⟨c2, i2, heq⟩ | ⟨t, s2, heq⟩ | ⟨e, hde, heq⟩
    · rw [heq]
      exact ⟨rfl, rfl⟩
    · rw [heq] at h
      cases h
    · rw [heq] at h
      cases h
  · intro e h
    rcases token_endpoint_cases now deleteOutcome clients store req with
      ⟨c2, i2, heq⟩ | ⟨t, s2, heq⟩ | ⟨e2, hde, heq⟩
    · rw [heq] at h
      cases h
    · rw [heq] at h
      cases h
    · rw [heq] at h
      cases h
      exact hde
  · intro client s hmand hgt hrs hcl hsec hred hinv
    have hs : (valid_grant now deleteOutcome store req.params.code client.id).2 = store := by
      rcases valid_grant_cases now deleteOutcome store req.params.code client.id with
        ⟨hi, hs⟩ | ⟨⟨t, ht⟩, hde⟩ | ⟨e, he, hde, hs⟩
      · exact hs
      · rw [hinv] at ht
        cases ht
      · rw [hinv] at he
        cases he
    rcases hvg : valid_grant now deleteOutcome store req.params.code client.id
      with ⟨r, store2⟩
    rw [hvg] at hinv hs
    simp only at hinv hs
    subst hinv
    subst hs
    push_neg at hmand
    simp [token_endpoint, hmand.1, hmand.2.1, hmand.2.2.1, hmand.2.2.2,
      hgt, hrs, hcl, hsec, hred, hvg]

/-- Witness for C5 at concrete inputs: a malformed code leaves the store
unchanged, and a request with a missing mandatory field gets a status-400
OAuth error with the store untouched. -/
theorem oauth_C5_witness :
    ((valid_grant 0 none [⟨"g1", "c1", 0, "u1", "s"⟩] "abc" "c1").2 =
      [⟨"g1", "c1", 0, "u1", "s"⟩]) ∧
    ((token_endpoint 0 none [] [⟨"g1", "c1", 0, "u1", "s"⟩]
        ⟨"", ⟨"", "", "", "", "", ""⟩⟩).2 = [⟨"g1", "c1", 0, "u1", "s"⟩] ∧
      ((token_endpoint 0 none [] [⟨"g1", "c1", 0, "u1", "s"⟩]
        ⟨"", ⟨"", "", "", "", "", ""⟩⟩).1).status = 400) :=
  ⟨(oauth_C5 0 none [] [⟨"g1", "c1", 0, "u1", "s"⟩] "abc" "c1"
      ⟨"", ⟨"", "", "", "", "", ""⟩⟩).1 (by decide),
    (oauth_C5 0 none [] [⟨"g1", "c1", 0, "u1", "s"⟩] "abc" "c1"
      ⟨"", ⟨"", "", "", "", "", ""⟩⟩).2.2.1 "oat" "invalid_request" (by decide)⟩

/-- C7: past the schema and grant-type checks, supplying the client secret
both in the `Authorization` header and in the `client_secret` field is
rejected as `invalid_request` whatever the two values are; supplying it in
neither place is rejected the same way; and when it arrives only in the
header, the resolved secret is the header with its first six characters
(the scheme prefix) stripped, used verbatim. -/
theorem oauth_C7 (now : Int) (deleteOutcome : Option String) (clients : List Client)
    (store : GrantStore) (req : TokenReq)
    (hm : req.params.grant_type ≠ "" ∧ req.params.client_id ≠ "" ∧
      req.params.code ≠ "" ∧ req.params.redirect_uri ≠ "")
    (hgt : req.params.grant_type = "authorization_code") :
    (req.authorization_header ≠ "" → req.params.client_secret ≠ "" →
      (token_endpoint now deleteOutcome clients store req).1 =
        .oauthErr "oat" "invalid_request") ∧
    (req.authorization_header = "" → req.params.client_secret = "" →
      (token_endpoint now deleteOutcome clients store req).1 =
        .oauthErr "oat" "invalid_request") ∧
    (req.authorization_header ≠ "" → req.params.client_secret = "" →
      resolve_secret req = some (req.authorization_header.drop 6)) := by
  obtain ⟨hm1, hm2, hm3, hm4⟩ := hm
  refine ⟨?_, ?_, ?_⟩
  · intro h1 h2
    have hrs : resolve_secret req = none := by simp [resolve_secret, h1, h2]
    simp [token_endpoint, hm1, hm2, hm3, hm4, hgt, hrs]
  · intro h1 h2
    have hrs : resolve_secret req = none := by simp [resolve_secret, h1, h2]
    simp [token_endpoint, hm1, hm2, hm3, hm4, hgt, hrs]
  · intro h1 h2
    simp [resolve_secret, h1, h2]

/-- Witness for C7: concrete requests carrying the secret twice, not at
all, and only via the header. -/
theorem oauth_C7_witness :
    ((token_endpoint 0 none [] []
        ⟨"Basic s1", ⟨"authorization_code", "c1", "g|s", "u", "", "s1"⟩⟩).1 =
      .oauthErr "oat" "invalid_request") ∧
    ((token_endpoint 0 none [] []
        ⟨"", ⟨"authorization_code", "c1", "g|s", "u", "", ""⟩⟩).1 =
      .oauthErr "oat" "invalid_request") ∧
    (resolve_secret ⟨"Basic xyz", ⟨"authorization_code", "c1", "g|s", "u", "", ""⟩⟩ =
      some "xyz") :=
  ⟨(oauth_C7 0 none [] [] ⟨"Basic s1", ⟨"authorization_code", "c1", "g|s", "u", "", "s1"⟩⟩
      ⟨by decide, by decide, by decide, by decide⟩ (by decide)).1 (by decide) (by decide),
    (oauth_C7 0 none [] [] ⟨"", ⟨"authorization_code", "c1", "g|s", "u", "", ""⟩⟩
      ⟨by decide, by decide, by decide, by decide⟩ (by decide)).2.1 (by decide) (by decide),
    by
      have h := (oauth_C7 0 none [] []
        ⟨"Basic xyz", ⟨"authorization_code", "c1", "g|s", "u", "", ""⟩⟩
        ⟨by decide, by decide, by decide, by decide⟩ (by decide)).2.2 (by decide) (by decide)
      rw [h]
      decide⟩

/-- C4 fails on the source: with a recognized `response_type` other than
`"code"` (and a well-formed request for an existing client), the handler
writes the 501 "not implemented" response but does not return, so it goes
on to look the client up and to invoke the login flow after the response
was already sent. -/
theorem oauth_C4_bug :
    authorize
      [("client_id", "c1"), ("response_type", "token"),
        ("redirect_uri", "https://c1/cb")]
      [⟨"c1", "s1", "https://c1/cb", "C One"⟩] =
      [.notImplemented, .clientLookup "c1",
        .login "c1" "C One" "https://c1/cb" ""] := by
  decide

/-- Counterexample to C10 as stated: `response_type = "toString"` lies
outside the three-element enumeration, yet the handler does not report
`unsupported_response_type` for it — the truthy property lookup finds the
inherited `Object.prototype.toString`, so the request passes the check and
reaches the not-implemented path instead. -/
theorem oauth_C10_cex :
    ("toString" ∉ response_types) ∧
    authorize [("client_id", "c1"), ("response_type", "toString"),
        ("redirect_uri", "u")] [] ≠
      [.oauthError "eua" "unsupported_response_type"] ∧
    (authorize [("client_id", "c1"), ("response_type", "toString"),
        ("redirect_uri", "u")] []).head? = some .notImplemented := by
  decide

/-- C10 as amended: with the mandatory `eua` parameters present, the
handler reports `unsupported_response_type` exactly when the truthy
property lookup fails — that is, when `response_type` is neither one of
the three own keys `token`, `code`, `code_and_token` nor an inherited
`Object.prototype` property name; the recognized values `token` and
`code_and_token` pass the check and instead reach the not-implemented
response first. -/
theorem oauth_C10_amended (params : List (String × String)) (clients : List Client)
    (hm : ¬ eua_mandatory.any (fun p => getParam params p = "")) :
    (authorize params clients = [.oauthError "eua" "unsupported_response_type"] ↔
      ¬ response_type_truthy (getParam params "response_type")) ∧
    (response_type_truthy (getParam params "response_type") = true ↔
      (getParam params "response_type" ∈ response_types ∨
        getParam params "response_type" ∈ object_prototype_keys)) ∧
    response_types = ["token", "code", "code_and_token"] ∧
    ((getParam params "response_type" = "token" ∨
        getParam params "response_type" = "code_and_token") →
      (authorize params clients).head? = some .notImplemented) := by
  refine ⟨⟨?_, ?_⟩, by simp [response_type_truthy], rfl, ?_⟩
  · intro h
    by_contra htr
    by_cases hcode : getParam params "response_type" = "code"
    · rw [hcode] at htr
      simp [authorize, hm, hcode, htr] at h
    · simp [authorize, hm, htr, hcode] at h
  · intro hnt
    simp [authorize, hm, hnt]
  · intro h
    have htok : response_type_truthy "token" = true := by decide
    have hcat : response_type_truthy "code_and_token" = true := by decide
    rcases h with h | h
    · simp [authorize, hm, h, htok]
    · simp [authorize, hm, h, hcat]

/-- Witness for the amended C10: a value outside both the enumeration and
the inherited property names is reported as `unsupported_response_type`,
while `code_and_token` passes the check and reaches the not-implemented
response. -/
theorem oauth_C10_amended_witness :
    (authorize [("client_id", "c1"), ("response_type", "bogus"),
        ("redirect_uri", "u")] [] =
      [.oauthError "eua" "unsupported_response_type"]) ∧
    (authorize [("client_id", "c1"), ("response_type", "code_and_token"),
        ("redirect_uri", "u")] []).head? = some .notImplemented := by
  constructor
  · exact (oauth_C10_amended [("client_id", "c1"), ("response_type", "bogus"),
      ("redirect_uri", "u")] [] (by decide)).1.mpr (by decide)
  · exact (oauth_C10_amended [("client_id", "c1"), ("response_type", "code_and_token"),
      ("redirect_uri", "u")] [] (by decide)).2.2.2 (Or.inr (by decide))

/-- C9: a request reaching the authorization endpoint with no query string
on the URL and a parsed form body is processed by handing exactly the form
fields to `authorize` — the same processing a request carrying the same
parameters in the query string receives. -/
theorem oauth_C9 (clients : List Client) (fields : List (String × String))
    (other_form : Option (List (String × String))) :
    authorize_endpoint clients ⟨none, some fields⟩ = authorize fields clients ∧
    authorize_endpoint clients ⟨none, some fields⟩ =
      authorize_endpoint clients ⟨some fields, other_form⟩ :=
  ⟨rfl, rfl⟩

/-- C8: the grant issuer redirects the user agent exactly when the grant
was durably saved; on success the redirect goes to the client's
`redirect_uri` carrying `code = id + "|" + code` (and `state` passed
through unchanged when present) and the persisted grant is the one
encoded; on persistence failure the response is the unknown (server)
error and no redirect is produced. -/
theorem oauth_C8 (saveOutcome : SaveOutcome) (now : Int) (user_id : String)
    (client_data : ClientData) (grant_code : String) :
    ((∃ base qs, (send_grant saveOutcome now user_id client_data grant_code).1 =
        .redirect base qs) ↔ ∃ gid, saveOutcome = .ok gid) ∧
    (∀ gid, saveOutcome = .ok gid →
      send_grant saveOutcome now user_id client_data grant_code =
        (.redirect client_data.redirect_uri
          ([("code", gid ++ "|" ++ grant_code)] ++
            (if client_data.state ≠ "" then [("state", client_data.state)] else [])),
          some ⟨gid, client_data.client_id, now, user_id, grant_code⟩)) ∧
    (∀ e, saveOutcome = .err e →
      (send_grant saveOutcome now user_id client_data grant_code).1 =
        .serverError e) := by
  cases saveOutcome with
  | ok gid =>
    refine ⟨⟨fun _ => ⟨gid, rfl⟩, fun _ => ⟨_, _, rfl⟩⟩, ?_, ?_⟩
    · intro gid2 h
      injection h with h
      subst h
      by_cases hst : client_data.state = "" <;> simp [send_grant, hst]
    · intro e h
      cases h
  | err e =>
    refine ⟨⟨?_, ?_⟩, ?_, ?_⟩
    · rintro ⟨base, qs, hb⟩
      simp [send_grant] at hb
    · rintro ⟨gid, h⟩
      cases h
    · intro gid h
      cases h
    · intro e2 h
      injection h with h
      subst h
      rfl

/-- Witness for C8: a saved grant produces the redirect with the composed
code and the passed-through state; a failed save produces the server
error. -/
theorem oauth_C8_witness :
    send_grant (.ok "g1") 0 "u1" ⟨"c1", "https://c1/cb", "st"⟩ "sec" =
      (.redirect "https://c1/cb" [("code", "g1|sec"), ("state", "st")],
        some ⟨"g1", "c1", 0, "u1", "sec"⟩) ∧
    (send_grant (.err "boom") 0 "u1" ⟨"c1", "https://c1/cb", ""⟩ "sec").1 =
      .serverError "boom" := by
  constructor
  · rw [(oauth_C8 (.ok "g1") 0 "u1" ⟨"c1", "https://c1/cb", "st"⟩ "sec").2.1 "g1" rfl]
    decide
  · exact (oauth_C8 (.err "boom") 0 "u1" ⟨"c1", "https://c1/cb", ""⟩ "sec").2.2 "boom" rfl

/-- Running one redemption request for two consecutive steps (no
interleaving) computes exactly `valid_grant` with a succeeding delete: the
small-step model agrees with the sequential embedding. -/
theorem stepReq_twice_eq_valid_grant (now : Int) (store : GrantStore)
    (code client_id : String) :
    (stepReq now (stepReq now store ⟨code, client_id, .start⟩).1
        (stepReq now store ⟨code, client_id, .start⟩).2).2.phase =
      .done (valid_grant now none store code client_id).1 ∧
    (stepReq now (stepReq now store ⟨code, client_id, .start⟩).1
        (stepReq now store ⟨code, client_id, .start⟩).2).1 =
      (valid_grant now none store code client_id).2 := by
  rcases hsplit : js_split '|' code with _ | ⟨gid, _ | ⟨gcode, _ | ⟨a, rest⟩⟩⟩
  · simp [stepReq, valid_grant, hsplit]
  · simp [stepReq, valid_grant, hsplit]
  · cases hg : getGrant store gid with
    | none => simp [stepReq, valid_grant, hsplit, hg]
    | some g =>
      by_cases hc : g.time < now - 60000 ∨ g.client_id ≠ client_id ∨ g.code ≠ gcode
      · simp [stepReq, valid_grant, hsplit, hg, hc]
      · simp [stepReq, valid_grant, hsplit, hg, hc]
  · simp [stepReq, valid_grant, hsplit]

/-- C2 fails on the source: the lookup and the delete are separate store
operations, so under the interleaving lookup-A, lookup-B, delete-A,
delete-B two concurrent redemptions of the same authorization code both
pass the checks on their snapshots and both issue a token — a second token
for the same code. -/
theorem oauth_C2_bug :
    (runSched 0 [true, false, true, false]
        ⟨[⟨"g1", "c1", 0, "u1", "s"⟩],
          ⟨"g1|s", "c1", .start⟩, ⟨"g1|s", "c1", .start⟩⟩).r1.phase =
      .done (.token "u1,c1") ∧
    (runSched 0 [true, false, true, false]
        ⟨[⟨"g1", "c1", 0, "u1", "s"⟩],
          ⟨"g1|s", "c1", .start⟩, ⟨"g1|s", "c1", .start⟩⟩).r2.phase =
      .done (.token "u1,c1") := by
  decide
